import Mathlib

/-!
Verification development for the scan-orchestration and caching engine of
`agentic_security/security_pipeline.py` (class `SecurityPipeline`).

Modelling conventions, shared by every definition below:
* Python strings are modelled as their codepoint sequences (`List Nat`,
  via `codes`); the Python substring test `needle in hay` is list-infix
  on codepoints, and `str.lower()` is the ASCII case map on codepoints
  (every pattern and label compared in the source is ASCII).
* Python floats are modelled as rationals (`Rat`); the only operations the
  source performs on severities are `max` and threshold comparisons, which
  are exact on the values involved.
* Python values flowing through result dictionaries are modelled by the
  inductive `PyVal` (strings, numbers, booleans, lists, string-keyed
  dicts).  A Python dict is an association list in insertion order with
  unique keys; lookups take the first binding.
* Code that can raise is modelled in `Except Unit` (or `Except String`
  where the caught message is stored); a `try/except` becomes a `match`
  on the `Except` value.
-/

/-- Codepoints of a string (the model of a Python `str`). -/
def codes (s : String) : List Nat := s.data.map Char.toNat

/-- ASCII lower-casing of one codepoint, the model of Python `str.lower`
on the ASCII range (uppercase letters are 65–90). -/
def lowerCode (n : Nat) : Nat := if 65 ≤ n ∧ n ≤ 90 then n + 32 else n

/-- `content.lower()` on the codepoint model. -/
def lowerCodes (l : List Nat) : List Nat := l.map lowerCode

/-- Python `needle in hay` for strings: contiguous-substring test. -/
def strIn (needle hay : List Nat) : Bool := decide (needle <:+: hay)

/-- Python `s.endswith(suffix)`. -/
def strEnds (sfx s : String) : Bool := decide (codes sfx <:+ codes s)

/-- Model of the Python values stored in the pipeline's result
dictionaries: strings, numbers (floats as rationals), booleans, lists and
string-keyed dicts (association lists in insertion order). -/
inductive PyVal where
  | str (s : String)
  | num (q : Rat)
  | bool (b : Bool)
  | list (l : List PyVal)
  | dict (d : List (String × PyVal))

/-- First binding of key `k` in a dict body (Python dicts have unique
keys, so the first binding is the binding). -/
def lookupD (d : List (String × PyVal)) (k : String) : Option PyVal :=
  (d.find? (fun p => p.1 == k)).map (·.2)

/-- Python `k in v` for a string `k`: key test on dicts, membership on
lists, substring test on strings; `TypeError` (modelled as `.error`) on
numbers and booleans. -/
def pyContains (v : PyVal) (k : String) : Except Unit Bool :=
  match v with
  | .dict d => Except.ok (d.any (fun p => p.1 == k))
  | .list l => Except.ok (l.any (fun x => match x with | .str s => s == k | _ => false))
  | .str s => Except.ok (strIn (codes k) (codes s))
  | _ => Except.error ()

/-- Python `v[k]` for a string key: dict lookup (`KeyError` when absent);
`TypeError` on every other shape. -/
def pySubscr (v : PyVal) (k : String) : Except Unit PyVal :=
  match v with
  | .dict d =>
    match lookupD d k with
    | some x => Except.ok x
    | none => Except.error ()
  | _ => Except.error ()

/-- Python `v.get(k, default)`: defaulted dict lookup; `AttributeError`
(no `.get` method) on every non-dict shape. -/
def dictGet (v : PyVal) (k : String) (dflt : PyVal) : Except Unit PyVal :=
  match v with
  | .dict d => Except.ok ((lookupD d k).getD dflt)
  | _ => Except.error ()

/-- Python `for x in v`: lists yield their elements, dicts their keys,
strings their one-character substrings; numbers and booleans raise
`TypeError`. -/
def asIterList (v : PyVal) : Except Unit (List PyVal) :=
  match v with
  | .list l => Except.ok l
  | .dict d => Except.ok (d.map (fun p => PyVal.str p.1))
  | .str s => Except.ok (s.data.map (fun c => PyVal.str ⟨[c]⟩))
  | _ => Except.error ()

/-- Digit-string to `Nat` (`none` when empty or a non-digit occurs). -/
def parseDigits (cs : List Char) : Option Nat :=
  if cs ≠ [] ∧ cs.all (fun c => decide ('0' ≤ c ∧ c ≤ '9')) then
    some (cs.foldl (fun n c => 10 * n + (c.toNat - 48)) 0)
  else none

/-- Nonnegative decimal literal (`"7"`, `"7.5"`), as accepted by Python
`float`. -/
def parseFloatPos (cs : List Char) : Option Rat :=
  match cs.splitOn '.' with
  | [w] => (parseDigits w).map (fun n => (n : Rat))
  | [w, f] =>
    match parseDigits w, parseDigits f with
    | some n, some m => some ((n : Rat) + (m : Rat) / ((10 : Rat) ^ f.length))
    | _, _ => none
  | _ => none

/-- Python `float(s)` on a string: decimal literal with optional sign,
`ValueError` (modelled as `none`) otherwise. -/
def parseFloat? (s : String) : Option Rat :=
  match s.data with
  | '-' :: rest => (parseFloatPos rest).map Neg.neg
  | cs => parseFloatPos cs

/-- Python `float(v)`: numbers directly, booleans as 0/1, numeric strings
parsed; `TypeError`/`ValueError` otherwise. -/
def pyFloat (v : PyVal) : Except Unit Rat :=
  match v with
  | .num q => Except.ok q
  | .bool b => Except.ok (if b then 1 else 0)
  | .str s =>
    match parseFloat? s with
    | some q => Except.ok q
    | none => Except.error ()
  | _ => Except.error ()

/-- Python `str(v)`.  Strings render as themselves; the renderings of the
other shapes (digits, `True`/`False`, bracketed collections) are opaque
here — like in Python they are never equal to a bare severity label, which
is the only way `_get_max_severity` consumes this value. -/
def pyStr (v : PyVal) : String :=
  match v with
  | .str s => s
  | .bool b => if b then "True" else "False"
  | .num _ => "<number>"
  | .list _ => "<list>"
  | .dict _ => "<dict>"

/-- The fixed `severity_map` of `_get_max_severity`
(`critical/high/medium/low/info`), keyed by lower-cased codepoints. -/
def severityMap : List (List Nat × Rat) :=
  [(codes "critical", 9), (codes "high", 7), (codes "medium", 5),
   (codes "low", 3), (codes "info", 0)]

/-- `severity_map.get(label, 0.0)`. -/
def sevLookup (s : List Nat) : Rat :=
  ((severityMap.find? (fun p => p.1 == s)).map (·.2)).getD 0

/-- Sequential evaluation of a fallible map over a list, the model of a
Python generator consumed by `max`: the first raising element aborts the
whole computation. -/
def exMapM (f : PyVal → Except Unit Rat) : List PyVal → Except Unit (List Rat)
  | [] => Except.ok []
  | x :: xs =>
    match f x with
    | Except.error e => Except.error e
    | Except.ok v =>
      match exMapM f xs with
      | Except.error e => Except.error e
      | Except.ok vs => Except.ok (v :: vs)

/-- Python `max(...)` over a sequence of floats: `ValueError` on an empty
sequence. -/
def pyMaxRat : List Rat → Except Unit Rat
  | [] => Except.error ()
  | x :: xs => Except.ok (xs.foldl max x)

/-- Severity of one ZAP alert: `float(alert.get('riskcode', 0))`. -/
def zapAlertSeverity (alert : PyVal) : Except Unit Rat :=
  match dictGet alert "riskcode" (.num 0) with
  | Except.error e => Except.error e
  | Except.ok v => pyFloat v

/-- The `'zap'` branch of `_get_max_severity`:
`max(float(alert.get('riskcode', 0)) for alert in result['zap'].get('alerts', []))`. -/
def zapSeverity (z : PyVal) : Except Unit Rat :=
  match dictGet z "alerts" (.list []) with
  | Except.error e => Except.error e
  | Except.ok alerts =>
    match asIterList alerts with
    | Except.error e => Except.error e
    | Except.ok al =>
      match exMapM zapAlertSeverity al with
      | Except.error e => Except.error e
      | Except.ok vals => pyMaxRat vals

/-- Severity of one Nuclei finding:
`severity_map.get(str(finding.get('severity', '')).lower(), 0.0)`. -/
def nucFindingSeverity (finding : PyVal) : Except Unit Rat :=
  match dictGet finding "severity" (.str "") with
  | Except.error e => Except.error e
  | Except.ok sv => Except.ok (sevLookup (lowerCodes (codes (pyStr sv))))

/-- The `'nuclei'` branch of `_get_max_severity`:
`max(severity_map.get(str(finding.get('severity', '')).lower(), 0.0) for finding in result['nuclei'])`. -/
def nucleiSeverity (nv : PyVal) : Except Unit Rat :=
  match asIterList nv with
  | Except.error e => Except.error e
  | Except.ok l =>
    match exMapM nucFindingSeverity l with
    | Except.error e => Except.error e
    | Except.ok vals => pyMaxRat vals

/-- Severity of one dependency vulnerability: `float(vuln.get('cvssScore', 0))`. -/
def depVulnSeverity (v : PyVal) : Except Unit Rat :=
  match dictGet v "cvssScore" (.num 0) with
  | Except.error e => Except.error e
  | Except.ok x => pyFloat x

/-- The `'dependency'` branch of `_get_max_severity`:
`max(float(vuln.get('cvssScore', 0)) for vuln in result['dependency'].get('vulnerabilities', []))`. -/
def depSeverity (dv : PyVal) : Except Unit Rat :=
  match dictGet dv "vulnerabilities" (.list []) with
  | Except.error e => Except.error e
  | Except.ok vulns =>
    match asIterList vulns with
    | Except.error e => Except.error e
    | Except.ok l =>
      match exMapM depVulnSeverity l with
      | Except.error e => Except.error e
      | Except.ok vals => pyMaxRat vals

/-- The `try` body of `_get_max_severity`: the `zap`/`nuclei`/`dependency`
branch cascade, falling through to `0.0` when none of the keys is
present. -/
def tryGetMaxSeverity (result : PyVal) : Except Unit Rat :=
  match pyContains result "zap" with
  | Except.error e => Except.error e
  | Except.ok true => (pySubscr result "zap").bind zapSeverity
  | Except.ok false =>
    match pyContains result "nuclei" with
    | Except.error e => Except.error e
    | Except.ok true => (pySubscr result "nuclei").bind nucleiSeverity
    | Except.ok false =>
      match pyContains result "dependency" with
      | Except.error e => Except.error e
      | Except.ok true => (pySubscr result "dependency").bind depSeverity
      | Except.ok false => Except.ok 0

/-- `SecurityPipeline._get_max_severity`: the `try` body with every
exception caught and converted to `0.0`. -/
def getMaxSeverity (result : PyVal) : Rat :=
  match tryGetMaxSeverity result with
  | Except.ok q => q
  | Except.error _ => 0

example : getMaxSeverity (.dict []) = 0 := rfl

example : getMaxSeverity (.dict [("nuclei", .list [.dict [("severity", .str "critical")]])]) = 9 := rfl

example :
    getMaxSeverity (.dict [("zap", .dict [("alerts",
      .list [.dict [("riskcode", .num 7)], .dict [("riskcode", .str "abc")]])])]) = 0 := rfl

/-! ## Pattern scanner (`_run_code_security_checks`) -/

/-- One recorded pattern-scan hit: the dict
`{'file': ..., 'type': ..., 'severity': ...}` appended per matching
category. -/
structure Finding where
  file : String
  ftype : String
  severity : String
deriving DecidableEq

/-- The `security_patterns` taxonomy, verbatim from the source, in dict
insertion order. -/
def securityPatterns : List (String × List String) :=
  [("sql_injection", ["execute(", "cursor.execute(", "raw_query", "SELECT * FROM",
     "INSERT INTO", "UPDATE", "DELETE FROM"]),
   ("command_injection", ["os.system", "subprocess.call", "eval(", "exec("]),
   ("xss", ["<script>", "innerHTML", "document.write", "<div>", "user_input"]),
   ("weak_crypto", ["md5", "sha1", "DES", "RC4"]),
   ("insecure_auth", ["basic_auth", "plaintext_password", "verify=False"]),
   ("xxe", ["xml.etree.ElementTree", "xmlparse", "parsexml"]),
   ("path_traversal", ["../", "file://", "read_file"]),
   ("insecure_deserialization", ["pickle.loads", "yaml.load", "eval("])]

/-- Append a finding under category `vt` in the accumulated results dict
(`results[vuln_type].append(...)`, creating the key at the end on first
use, as Python dict insertion does). -/
def addFinding (res : List (String × List Finding)) (vt : String) (f : Finding) :
    List (String × List Finding) :=
  if res.any (fun p => p.1 == vt) then
    res.map (fun p => if p.1 == vt then (p.1, p.2 ++ [f]) else p)
  else res ++ [(vt, [f])]

/-- One iteration of the `for vuln_type, patterns in security_patterns.items()`
loop of `_run_code_security_checks`: the `sql_injection` arm also fires on
the raw-content string-format heuristic (`'SELECT' in content and
'\x7b' in content and '\x7d' in content`) and always records severity
`'high'`; every other arm records `'high'` exactly for
`command_injection`/`insecure_deserialization` and `'medium'` otherwise.
Pattern membership is tested against `content.lower()` with the pattern in
its original case. -/
def patStep (path content : String) (res : List (String × List Finding))
    (p : String × List String) : List (String × List Finding) :=
  if p.1 == "sql_injection" then
    if p.2.any (fun pat => strIn (codes pat) (lowerCodes (codes content))) ||
        (strIn (codes "SELECT") (codes content) &&
         strIn (codes "\x7b") (codes content) && strIn (codes "\x7d") (codes content)) then
      addFinding res p.1 ⟨path, p.1, "high"⟩
    else res
  else if p.2.any (fun pat => strIn (codes pat) (lowerCodes (codes content))) then
    addFinding res p.1 ⟨path, p.1,
      if p.1 == "command_injection" || p.1 == "insecure_deserialization"
      then "high" else "medium"⟩
  else res

/-- Scanning one file's content against the whole taxonomy. -/
def checkFile (res : List (String × List Finding)) (path content : String) :
    List (String × List Finding) :=
  securityPatterns.foldl (patStep path content) res

/-- One file of the walked tree: `readable = false` makes `open(...)` raise
(with message `ioMsg`). -/
structure SFile where
  path : String
  readable : Bool
  content : String
  ioMsg : String

/-- `file.endswith(('.py', '.js', '.php', '.java'))`. -/
def hasScanExt (p : String) : Bool :=
  strEnds ".py" p || strEnds ".js" p || strEnds ".php" p || strEnds ".java" p

/-- The `os.walk` loop of `_run_code_security_checks` over the files of
the tree in walk order.  The whole loop sits inside one `try`: a read
failure aborts the remaining walk, returning the results accumulated so
far and the raised message. -/
def scanWalk : List SFile → List (String × List Finding) →
    List (String × List Finding) × Option String
  | [], res => (res, none)
  | f :: rest, res =>
    if hasScanExt f.path then
      if f.readable then scanWalk rest (checkFile res f.path f.content)
      else (res, some f.ioMsg)
    else scanWalk rest res

/-- Rendering of the accumulated pattern findings as the Python result
dict. -/
def findingToPy (f : Finding) : PyVal :=
  .dict [("file", .str f.file), ("type", .str f.ftype), ("severity", .str f.severity)]

/-- Association list of findings as the Python `results` dict body. -/
def assocToPy (a : List (String × List Finding)) : List (String × PyVal) :=
  a.map (fun p => (p.1, PyVal.list (p.2.map findingToPy)))

/-- `SecurityPipeline._run_code_security_checks`.  `dep` is the outcome of
the best-effort dependency-check block (`some v` stores `v` under
`'dependency'`; `none` models its inner exception, which only logs a
warning).  When the walk raised, the dependency block is never reached and
the outer handler stores the message under `'error'`. -/
def runCodeChecks (dep : Option PyVal) (files : List SFile) : PyVal :=
  match scanWalk files [] with
  | (res, some m) => .dict (assocToPy res ++ [("error", .str m)])
  | (res, none) =>
    match dep with
    | some d => .dict (assocToPy res ++ [("dependency", d)])
    | none => .dict (assocToPy res)

example :
    runCodeChecks none [⟨"a.py", true, "os.system(x)", "m"⟩] =
      .dict [("command_injection",
        .list [.dict [("file", .str "a.py"), ("type", .str "command_injection"),
          ("severity", .str "high")]])] := rfl

/-! ## Web checks and the orchestrator (`run_security_checks`) -/

/-- The external-scan environment: per-URL outcomes of the ZAP and Nuclei
blocks (`Except.error m` = the invocation raised with message `m`, turned
into an `{'error': m}` value by the handler), the file tree per code path,
and the per-path dependency-check outcome. -/
structure ScanEnv where
  zapRes : String → Except String PyVal
  nucleiRes : String → Except String PyVal
  files : String → List SFile
  dep : String → Option PyVal

/-- `try/except` normalization used by `_run_web_security_checks` for each
tool: a raised invocation is recorded as `{'error': str(e)}`. -/
def exceptToVal : Except String PyVal → PyVal
  | Except.ok v => v
  | Except.error m => PyVal.dict [("error", PyVal.str m)]

/-- `SecurityPipeline._run_web_security_checks`: always returns a dict with
both the `'zap'` and `'nuclei'` keys, in that order. -/
def runWebChecks (env : ScanEnv) (url : String) : PyVal :=
  .dict [("zap", exceptToVal (env.zapRes url)), ("nuclei", exceptToVal (env.nucleiRes url))]

/-- One configured scan target (`{'type': 'web'|'code', 'url'|'path': ...}`);
`location` is the url (web) or path (code). -/
structure Target where
  ttype : String
  location : String

/-- The `'web'` group built by `run_security_checks`: one entry per web
target, in configured order. -/
def webResults (env : ScanEnv) (targets : List Target) : List PyVal :=
  (targets.filter (fun t => t.ttype == "web")).map (fun t => runWebChecks env t.location)

/-- The `'code'` group built by `run_security_checks`: one entry per code
target, in configured order. -/
def codeResults (env : ScanEnv) (targets : List Target) : List PyVal :=
  (targets.filter (fun t => t.ttype == "code")).map
    (fun t => runCodeChecks (env.dep t.location) (env.files t.location))

/-- `SecurityPipeline.run_security_checks`: starts from
`{"web": [], "code": []}` and appends one result per matching target, so
both groups are always present and bound to lists. -/
def runSecurityChecks (env : ScanEnv) (targets : List Target) : PyVal :=
  .dict [("web", .list (webResults env targets)), ("code", .list (codeResults env targets))]

/-! ## Result cache and the cache-consultation phase of `run_pipeline` -/

/-- `SecurityPipeline._validate_cached_results`: both `'web'` and `'code'`
keys present and both bound to lists; any raised lookup (non-dict shapes)
is caught and yields `False`. -/
def isListV : PyVal → Bool
  | .list _ => true
  | _ => false

/-- Structural Validation predicate on a cached results value. -/
def validateCachedResults (results : PyVal) : Bool :=
  match pyContains results "web", pyContains results "code" with
  | Except.ok bw, Except.ok bc =>
    if bw && bc then
      match pySubscr results "web", pySubscr results "code" with
      | Except.ok vw, Except.ok vc => isListV vw && isListV vc
      | _, _ => false
    else false
  | _, _ => false

/-- Modelled from the spec: the durable key-value store behind
`SecurityCache` (`cache.py` is not among the given sources).  §4.3: `get`
returns the stored entry for a `scan_id` or absent, `save` is idempotent
overwrite (last write wins); entries are never partially updated.  The
store maps each `scan_id` to the results object passed to `save`;
`cacheGet` is `get_scan_results(id)['results']`. -/
def cacheGet (store : List (String × PyVal)) (k : String) : Option PyVal :=
  (store.find? (fun p => p.1 == k)).map (·.2)

/-- Modelled from the spec: `SecurityCache.save_scan_results` — overwrite
the binding of `k` (keeping its position) or append a new one. -/
def cacheSave (store : List (String × PyVal)) (k : String) (v : PyVal) :
    List (String × PyVal) :=
  if store.any (fun p => p.1 == k) then
    store.map (fun p => if p.1 == k then (k, v) else p)
  else store ++ [(k, v)]

/-- Outcome of the cache-consultation phase of `run_pipeline`: either an
early `return cached_results['results']`, or the `security_results` the
pipeline proceeds with together with the store after any persist. -/
inductive CachePhaseOut where
  | early (v : PyVal)
  | proceed (securityResults : PyVal) (store : List (String × PyVal))

/-- `SecurityPipeline._run_new_scan`: run `run_security_checks` and persist
under `scanId` unless `_skip_cache` is set. -/
def runNewScan (skipCache : Bool) (store : List (String × PyVal)) (scanId : String)
    (env : ScanEnv) (targets : List Target) : PyVal × List (String × PyVal) :=
  let fresh := runSecurityChecks env targets
  (fresh, if skipCache then store else cacheSave store scanId fresh)

/-- Lines 316–340 of `run_pipeline`: (1) when `_skip_cache` is unset, a hit
under the fixed key `"latest_scan"` returns its results immediately —
without Validation; (2) otherwise the timestamp-keyed `scan_id` is looked
up, and only that entry is checked with `_validate_cached_results`, a
failure triggering `_run_new_scan`. -/
def cachePhase (skipCache : Bool) (store : List (String × PyVal)) (scanId : String)
    (env : ScanEnv) (targets : List Target) : CachePhaseOut :=
  match (if skipCache then none else cacheGet store "latest_scan") with
  | some r => .early r
  | none =>
    match cacheGet store scanId, skipCache with
    | some r, false =>
      if validateCachedResults r then .proceed r store
      else
        let (fresh, st) := runNewScan false store scanId env targets
        .proceed fresh st
    | _, _ =>
      let (fresh, st) := runNewScan skipCache store scanId env targets
      .proceed fresh st

/-! ## Severity aggregation, remediation loop and the pipeline result -/

/-- The groups of `security_results.values()`, each made iterable — the
shape of the doubly nested generator at line 351
(`for check_type in security_results.values() for result in check_type`). -/
def asGroups : List (String × PyVal) → Except Unit (List (List PyVal))
  | [] => Except.ok []
  | p :: rest =>
    match asIterList p.2 with
    | Except.error e => Except.error e
    | Except.ok l =>
      match asGroups rest with
      | Except.error e => Except.error e
      | Except.ok ls => Except.ok (l :: ls)

/-- The aggregation step of `run_pipeline`:
`max(self._get_max_severity(result) for check_type in security_results.values() for result in check_type)`.
Raises (`Except.error`) on a non-dict value, a non-iterable group, or an
empty flattened sequence. -/
def maxSeverityAgg (v : PyVal) : Except Unit Rat :=
  match v with
  | .dict d =>
    match asGroups d with
    | Except.error e => Except.error e
    | Except.ok gs => pyMaxRat ((gs.flatten).map getMaxSeverity)
  | _ => Except.error ()

/-- `SecurityPipeline.validate_fixes`: re-run `run_security_checks` (on the
post-fix environment) and require every individual result entry of both
groups to sit strictly below the critical threshold. -/
def validateFixes (threshold : Rat) (env : ScanEnv) (targets : List Target) : Bool :=
  (webResults env targets ++ codeResults env targets).all
    (fun r => decide (getMaxSeverity r < threshold))

/-- The `while fix_attempts < self.max_fix_attempts` loop, counter `i` with
remaining fuel `maxA - i`: `step i` true (fixes implemented and validated)
breaks with the counter unchanged, otherwise the counter is incremented. -/
def fixLoopAux (step : Nat → Bool) : Nat → Nat → Nat
  | 0, i => i
  | Nat.succ fuel, i => if step i then i else fixLoopAux step fuel (i + 1)

/-- Final value of `fix_attempts` after the remediation loop of
`run_pipeline`.  A return value `r < maxA` means the loop broke during
attempt `r + 1` (so `r + 1` attempts ran); `r = maxA` means all `maxA`
attempts ran without success. -/
def fixLoop (maxA : Nat) (step : Nat → Bool) : Nat := fixLoopAux step maxA 0

/-- Lines 357–380 of `run_pipeline` (threshold already exceeded): branch
creation failure returns `False`; otherwise the bounded fix loop runs, one
scan environment per attempt (`envs i` is the code state attempt `i`
re-scans), and the run returns the PR-creation outcome on success or
`False` on exhaustion. -/
def remediationPhase (threshold : Rat) (maxA : Nat) (createBranch : Bool)
    (implement : Nat → Bool) (envs : Nat → ScanEnv) (targets : List Target)
    (createPR : Bool) : Bool :=
  if createBranch then
    let n := fixLoop maxA (fun i => implement i && validateFixes threshold (envs i) targets)
    if n < maxA then createPR else false
  else false

/-- The value a `run_pipeline` call evaluates to: a boolean
(success/failure) or a results object (the cached early return, or the
`results` dict of the no-critical path). -/
inductive PipeReturn where
  | bool (b : Bool)
  | val (v : PyVal)

/-- `SecurityPipeline.run_pipeline`, side-effect-free core: cache phase,
severity aggregation (whose exception the top-level handler converts to
`False`), threshold decision, remediation loop, and the no-critical path
returning `results = {'status': True, 'reviews': []}`.  Progress
reporting, notification, the architecture review (whose suggestions do
not influence any modelled value) and the final `"latest_scan"` save are
display/storage effects outside the returned value. -/
def runPipelineModel (skipCache : Bool) (store : List (String × PyVal)) (scanId : String)
    (env : ScanEnv) (targets : List Target) (threshold : Rat) (maxA : Nat)
    (createBranch : Bool) (implement : Nat → Bool) (envs : Nat → ScanEnv)
    (createPR : Bool) : PipeReturn :=
  match cachePhase skipCache store scanId env targets with
  | .early v => .val v
  | .proceed sr _ =>
    match maxSeverityAgg sr with
    | Except.error _ => .bool false
    | Except.ok mx =>
      if threshold ≤ mx then
        .bool (remediationPhase threshold maxA createBranch implement envs targets createPR)
      else .val (.dict [("status", .bool true), ("reviews", .list [])])

/-! ## Concrete environments used by the claim theorems -/

/-- Environment with no reachable scanners and no files: every external
invocation raises and every tree is empty. -/
def envTriv : ScanEnv :=
  ⟨fun _ => Except.error "e", fun _ => Except.error "e", fun _ => [], fun _ => none⟩

/-- Environment whose web scan reports one ZAP alert of risk code 8. -/
def envHigh : ScanEnv :=
  ⟨fun _ => Except.ok (.dict [("alerts", .list [.dict [("riskcode", .num 8)]])]),
   fun _ => Except.ok (.list []), fun _ => [], fun _ => none⟩

/-- Environment whose web scan reports one ZAP alert of risk code 1. -/
def envLow : ScanEnv :=
  ⟨fun _ => Except.ok (.dict [("alerts", .list [.dict [("riskcode", .num 1)]])]),
   fun _ => Except.ok (.list []), fun _ => [], fun _ => none⟩

/-- One configured web target. -/
def webTargets : List Target := [⟨"web", "http://example.test"⟩]

/-- Remediation scenario in which the re-scan severity drops below the
threshold on the second attempt: attempt 1 still sees the high-severity
environment, attempt 2 (and later) the low one. -/
def dropAtTwo : Nat → ScanEnv := fun i => if i = 0 then envHigh else envLow

/-- Environment with one code tree holding a single clean file (matching
no vulnerability pattern) and no dependency checker. -/
def envClean : ScanEnv :=
  ⟨fun _ => Except.error "zap unavailable", fun _ => Except.error "nuclei unavailable",
   fun _ => [⟨"clean.py", true, "x = 1", "m"⟩], fun _ => none⟩

/-- One configured code target. -/
def cleanTargets : List Target := [⟨"code", "src"⟩]

/-- A cached value of the shape `run_pipeline` saves under
`"latest_scan"` (`{'results': {'status': True, 'reviews': []}}` stripped
to its inner object): it has neither a `web` nor a `code` key, so the
structural Validation predicate rejects it. -/
def badCached : PyVal := .dict [("status", .bool true), ("reviews", .list [])]

/-- A structurally valid cached scan result. -/
def goodCached : PyVal := .dict [("web", .list []), ("code", .list [])]

/-! ## Claim theorems -/

/-- C8: for every scan environment and every list of scan targets
(including the empty list and one-kind lists), `run_security_checks`
returns a dict in which both the `'web'` and the `'code'` group are
present and bound to (possibly empty) lists. -/
theorem c8_scan_result_groups (env : ScanEnv) (targets : List Target) :
    ∃ web code, runSecurityChecks env targets =
      .dict [("web", .list web), ("code", .list code)] :=
  ⟨webResults env targets, codeResults env targets, rfl⟩

/-- C10: with an empty `scan_targets` list and no cached result, the
severity-aggregation step takes `max` over an empty sequence, which
raises; the top-level handler converts this into an overall result of
`False` — not the no-critical-vulnerabilities result object. -/
theorem c10_empty_targets (skipCache : Bool) (scanId : String) (env : ScanEnv)
    (threshold : Rat) (maxA : Nat) (cb : Bool) (impl : Nat → Bool)
    (envs : Nat → ScanEnv) (pr : Bool) :
    maxSeverityAgg (runSecurityChecks env []) = Except.error () ∧
    runPipelineModel skipCache [] scanId env [] threshold maxA cb impl envs pr =
      .bool false := by
  refine ⟨rfl, ?_⟩
  cases skipCache <;> rfl

/-- C4: the remediation loop is bounded by `max_fix_attempts`.  With
`max_fix_attempts = 3`, fixes implemented each round and a re-scan
severity of 8 that never drops below the threshold 7, the attempt counter
reaches exactly 3 (three attempts ran, no infinite loop) and the phase
reports failure; when the re-scan severity drops below the threshold on
attempt 2, the counter stops at 1 (the loop broke during the second
attempt) and the phase proceeds to PR creation, returning its outcome. -/
theorem c4_fix_loop_bounded :
    (fixLoop 3 (fun i => (fun _ => true) i && validateFixes 7 envHigh webTargets) = 3 ∧
      ∀ pr : Bool,
        remediationPhase 7 3 true (fun _ => true) (fun _ => envHigh) webTargets pr = false) ∧
    (fixLoop 3 (fun i => (fun _ => true) i && validateFixes 7 (dropAtTwo i) webTargets) = 1 ∧
      ∀ pr : Bool,
        remediationPhase 7 3 true (fun _ => true) dropAtTwo webTargets pr = pr) := by
  refine ⟨⟨rfl, fun pr => rfl⟩, ⟨rfl, fun pr => rfl⟩⟩

/-- C7 counterexample: for a configuration with exactly one code target
whose files match no vulnerability pattern, `run_security_checks` returns
`{'web': [], 'code': [{}]}` — the code group holds the one target's
(empty) per-target dict — and not `{'web': [], 'code': []}` as the claim
states. -/
theorem c7_counterexample :
    runSecurityChecks envClean cleanTargets =
      .dict [("web", .list []), ("code", .list [.dict []])] ∧
    PyVal.dict [("web", .list []), ("code", .list [.dict []])] ≠
      .dict [("web", .list []), ("code", .list [])] := by
  refine ⟨rfl, ?_⟩
  intro h
  simp at h

/-- C7 (amended): with `critical_threshold = 7.0` and exactly one code
target whose files match no pattern, `run_security_checks` returns
`{'web': [], 'code': [r]}` with `r` the empty per-target dict, the
aggregate severity is 0.0, and `run_pipeline` takes the
no-critical-vulnerabilities path — returning the `results` object without
consulting the branch/fix/PR collaborators. -/
theorem c7_no_critical_path :
    runSecurityChecks envClean cleanTargets =
      .dict [("web", .list []), ("code", .list [.dict []])] ∧
    maxSeverityAgg (runSecurityChecks envClean cleanTargets) = Except.ok 0 ∧
    ∀ (scanId : String) (maxA : Nat) (cb : Bool) (impl : Nat → Bool)
      (envs : Nat → ScanEnv) (pr : Bool),
      runPipelineModel false [] scanId envClean cleanTargets 7 maxA cb impl envs pr =
        .val (.dict [("status", .bool true), ("reviews", .list [])]) := by
  exact ⟨rfl, rfl, fun _ _ _ _ _ _ => rfl⟩

/-- C1 counterexample: with `skip_cache` false, a cached entry under the
fixed key `"latest_scan"` is returned immediately — short-circuiting the
fresh scan — even though the structural Validation predicate fails on
it. -/
theorem c1_counterexample :
    cachePhase false [("latest_scan", badCached)] "pipeline_scan_x" envTriv [] =
      .early badCached ∧
    validateCachedResults badCached = false :=
  ⟨rfl, rfl⟩

/-- C1 (amended): the Validation predicate guards only the
timestamp-keyed `scan_id` lookup — there, a cached entry failing
Validation is treated as a miss, so a fresh scan is run and persisted,
and an entry passing Validation is returned without a fresh scan; but the
first lookup, under the fixed key `"latest_scan"`, returns the cached
result without any Validation. -/
theorem c1_cache_validation :
    (∀ (store : List (String × PyVal)) (scanId : String) (env : ScanEnv)
        (targets : List Target) (r : PyVal),
      cacheGet store "latest_scan" = some r →
      cachePhase false store scanId env targets = .early r) ∧
    (∀ (store : List (String × PyVal)) (scanId : String) (env : ScanEnv)
        (targets : List Target) (r : PyVal),
      cacheGet store "latest_scan" = none →
      cacheGet store scanId = some r →
      validateCachedResults r = false →
      cachePhase false store scanId env targets =
        .proceed (runSecurityChecks env targets)
          (cacheSave store scanId (runSecurityChecks env targets))) ∧
    (∀ (store : List (String × PyVal)) (scanId : String) (env : ScanEnv)
        (targets : List Target) (r : PyVal),
      cacheGet store "latest_scan" = none →
      cacheGet store scanId = some r →
      validateCachedResults r = true →
      cachePhase false store scanId env targets = .proceed r store) := by
  refine ⟨?_, ?_, ?_⟩
  · intro store scanId env targets r h1
    simp [cachePhase, h1]
  · intro store scanId env targets r h1 h2 h3
    simp [cachePhase, runNewScan, h1, h2, h3]
  · intro store scanId env targets r h1 h2 h3
    simp [cachePhase, h1, h2, h3]

/-- C1 witness: the three behaviors of `c1_cache_validation` at concrete
stores — an invalid `"latest_scan"` entry returned unvalidated, an
invalid `scan_id` entry replaced by a persisted fresh scan, and a valid
`scan_id` entry returned as is. -/
theorem c1_witness :
    cachePhase false [("latest_scan", badCached)] "sid" envTriv [] = .early badCached ∧
    cachePhase false [("sid", badCached)] "sid" envTriv [] =
      .proceed (runSecurityChecks envTriv [])
        (cacheSave [("sid", badCached)] "sid" (runSecurityChecks envTriv [])) ∧
    cachePhase false [("sid", goodCached)] "sid" envTriv [] =
      .proceed goodCached [("sid", goodCached)] :=
  ⟨c1_cache_validation.1 _ _ _ _ _ rfl,
   c1_cache_validation.2.1 _ _ _ _ _ rfl rfl rfl,
   c1_cache_validation.2.2 _ _ _ _ _ rfl rfl rfl⟩

/-- C3 counterexample: a readable matching file, then an unreadable file,
then another readable matching file.  The adapter does not throw — the
error is recorded under `'error'` — but the walk stops at the unreadable
file: `c.py`, which yields a finding when scanned alone (second
conjunct), contributes nothing to the combined result (first conjunct),
contradicting the claim that findings from readable files after the bad
file are still reported. -/
theorem c3_counterexample :
    runCodeChecks none
      [⟨"a.py", true, "os.system(x)", "mA"⟩, ⟨"b.py", false, "", "io fail"⟩,
       ⟨"c.py", true, "os.system(y)", "mC"⟩] =
      .dict [("command_injection",
        .list [.dict [("file", .str "a.py"), ("type", .str "command_injection"),
          ("severity", .str "high")]]),
        ("error", .str "io fail")] ∧
    runCodeChecks none [⟨"c.py", true, "os.system(y)", "mC"⟩] =
      .dict [("command_injection",
        .list [.dict [("file", .str "c.py"), ("type", .str "command_injection"),
          ("severity", .str "high")]])] :=
  ⟨rfl, rfl⟩

/-- Helper for C3: with every earlier matching file readable, the walk
runs up to the first unreadable matching file and stops there with its
message, independent of the files that follow. -/
theorem scanWalk_append_bad (bad : SFile) (post : List SFile)
    (hext : hasScanExt bad.path = true) (hbad : bad.readable = false) :
    ∀ (pre : List SFile) (res : List (String × List Finding)),
      (∀ f ∈ pre, hasScanExt f.path = true → f.readable = true) →
      scanWalk (pre ++ bad :: post) res = ((scanWalk pre res).1, some bad.ioMsg) := by
  intro pre
  induction pre with
  | nil =>
    intro res _
    simp [scanWalk, hext, hbad]
  | cons f rest ih =>
    intro res hpre
    by_cases hf : hasScanExt f.path = true
    · have hread : f.readable = true := hpre f (by simp) hf
      simp only [List.cons_append, scanWalk, hf, hread, if_true]
      exact ih _ (fun g hg => hpre g (by simp [hg]))
    · simp only [List.cons_append, scanWalk, hf, if_false, Bool.false_eq_true]
      exact ih _ (fun g hg => hpre g (by simp [hg]))

/-- C3 (amended): a per-file I/O error never propagates out of the
pattern scan, and findings from readable files scanned before the bad
file are still reported, together with an `'error'` entry carrying the
raised message; but the walk does not continue — the result is
independent of the files after the bad one, whose findings are lost, and
the dependency check is skipped. -/
theorem c3_walk_aborts (pre post : List SFile) (bad : SFile) (dep : Option PyVal)
    (hpre : ∀ f ∈ pre, hasScanExt f.path = true → f.readable = true)
    (hext : hasScanExt bad.path = true) (hbad : bad.readable = false) :
    runCodeChecks dep (pre ++ bad :: post) =
      .dict (assocToPy (scanWalk pre []).1 ++ [("error", .str bad.ioMsg)]) := by
  unfold runCodeChecks
  rw [scanWalk_append_bad bad post hext hbad pre [] hpre]

/-- C3 witness: the amended statement at a concrete tree — findings
before the unreadable file kept, its message recorded, the readable file
after it never scanned. -/
theorem c3_witness :
    runCodeChecks none
      ([⟨"a.py", true, "os.system(x)", "mA"⟩] ++ ⟨"b.py", false, "", "io fail"⟩ ::
        [⟨"c.py", true, "os.system(y)", "mC"⟩]) =
      .dict (assocToPy (scanWalk [⟨"a.py", true, "os.system(x)", "mA"⟩] []).1 ++
        [("error", .str "io fail")]) :=
  c3_walk_aborts _ _ _ _ (by decide) (by decide) (by decide)

/-- C5 counterexample: a file hitting only the `sql_injection` pattern
list records severity `"high"` — the dedicated `sql_injection` arm always
writes `'high'` — whereas the claim requires `"medium"` for every
category other than `command_injection` and `insecure_deserialization`. -/
theorem c5_counterexample :
    runCodeChecks none [⟨"s.py", true, "cursor.execute(q)", "m"⟩] =
      .dict [("sql_injection",
        .list [.dict [("file", .str "s.py"), ("type", .str "sql_injection"),
          ("severity", .str "high")]])] ∧
    "high" ≠ "medium" :=
  ⟨rfl, by decide⟩

/-- The severity tier the scanner actually records per category:
`"high"` for `sql_injection`, `command_injection` and
`insecure_deserialization`, `"medium"` otherwise. -/
def tierOf (vt : String) : String :=
  if vt == "sql_injection" || vt == "command_injection" ||
      vt == "insecure_deserialization" then "high"
  else "medium"

/-- All findings accumulated so far carry the tier of their category. -/
def sevOK (res : List (String × List Finding)) : Prop :=
  ∀ p ∈ res, ∀ f ∈ p.2, f.severity = tierOf p.1

/-- `addFinding` preserves the tier invariant when the added finding is
correctly tiered for its category. -/
theorem sevOK_addFinding {res : List (String × List Finding)} {vt : String} {f : Finding}
    (h : sevOK res) (hf : f.severity = tierOf vt) : sevOK (addFinding res vt f) := by
  unfold addFinding
  split
  · intro p hp g hg
    rw [List.mem_map] at hp
    obtain ⟨q, hq, rfl⟩ := hp
    by_cases hqv : q.1 == vt
    · have hq1 : q.1 = vt := by simpa using hqv
      simp only [hqv, if_true] at hg ⊢
      rcases List.mem_append.mp hg with hg' | hg'
      · exact h q hq g hg'
      · have : g = f := by simpa using hg'
        subst this
        rw [hf, hq1]
    · simp only [hqv, Bool.false_eq_true, if_false] at hg ⊢
      exact h q hq g hg
  · intro p hp g hg
    rcases List.mem_append.mp hp with hp' | hp'
    · exact h p hp' g hg
    · have : p = (vt, [f]) := by simpa using hp'
      subst this
      have : g = f := by simpa using hg
      subst this
      exact hf

/-- One taxonomy step preserves the tier invariant: the `sql_injection`
arm writes `"high"` (the tier of `sql_injection`), every other arm writes
exactly `tierOf` of its category. -/
theorem sevOK_patStep {res : List (String × List Finding)} (path content : String)
    (h : sevOK res) (p : String × List String) : sevOK (patStep path content res p) := by
  unfold patStep
  split
  case isTrue hsql =>
    split
    · apply sevOK_addFinding h
      simp only [tierOf, hsql, Bool.true_or, if_true]
    · exact h
  case isFalse hsql =>
    split
    · apply sevOK_addFinding h
      have hsql' : (p.1 == "sql_injection") = false := by
        simpa using hsql
      simp only [tierOf, hsql', Bool.false_or]
    · exact h

/-- Folding the whole taxonomy preserves the tier invariant. -/
theorem sevOK_foldl (path content : String) :
    ∀ (l : List (String × List String)) (res : List (String × List Finding)),
      sevOK res → sevOK (l.foldl (patStep path content) res)
  | [], _, h => h
  | p :: rest, _res, h =>
    sevOK_foldl path content rest _ (sevOK_patStep path content h p)

/-- Scanning one file preserves the tier invariant. -/
theorem sevOK_checkFile {res : List (String × List Finding)} (path content : String)
    (h : sevOK res) : sevOK (checkFile res path content) :=
  sevOK_foldl path content securityPatterns res h

/-- The whole walk preserves the tier invariant, whether or not it is cut
short by a read failure. -/
theorem sevOK_scanWalk :
    ∀ (files : List SFile) (res : List (String × List Finding)),
      sevOK res → sevOK (scanWalk files res).1 := by
  intro files
  induction files with
  | nil => intro res h; exact h
  | cons f rest ih =>
    intro res h
    unfold scanWalk
    split
    · split
      · exact ih _ (sevOK_checkFile f.path f.content h)
      · exact h
    · exact ih _ h

/-- C5 (amended): in every pattern scan, the recorded severity tier is
`"high"` exactly when the category is `sql_injection`,
`command_injection` or `insecure_deserialization` — the dedicated
`sql_injection` arm also writes `'high'` — and `"medium"` for every
other category (xss, weak_crypto, insecure_auth, xxe, path_traversal). -/
theorem c5_pattern_severity_tiers :
    (∀ (files : List SFile), ∀ p ∈ (scanWalk files []).1, ∀ f ∈ p.2,
      f.severity = tierOf p.1) ∧
    tierOf "sql_injection" = "high" ∧ tierOf "command_injection" = "high" ∧
    tierOf "insecure_deserialization" = "high" ∧ tierOf "xss" = "medium" ∧
    tierOf "weak_crypto" = "medium" ∧ tierOf "insecure_auth" = "medium" ∧
    tierOf "xxe" = "medium" ∧ tierOf "path_traversal" = "medium" := by
  refine ⟨?_, rfl, rfl, rfl, rfl, rfl, rfl, rfl, rfl⟩
  intro files
  exact sevOK_scanWalk files [] (fun p hp => absurd hp (List.not_mem_nil p))

/-- C5 witness: the tier invariant read off a concrete scan — the
`command_injection` hit of a one-file tree carries tier `"high"`. -/
theorem c5_witness :
    (Finding.mk "a.py" "command_injection" "high").severity = tierOf "command_injection" :=
  c5_pattern_severity_tiers.1 [⟨"a.py", true, "os.system(x)", "m"⟩]
    ("command_injection", [⟨"a.py", "command_injection", "high"⟩]) (by decide)
    ⟨"a.py", "command_injection", "high"⟩ (by decide)

/-- `exMapM` over `n` copies of a value its function maps to `q` yields
`n` copies of `q`. -/
theorem exMapM_replicate (f : PyVal → Except Unit Rat) (v : PyVal) (q : Rat)
    (hf : f v = Except.ok q) :
    ∀ n, exMapM f (List.replicate n v) = Except.ok (List.replicate n q) := by
  intro n
  induction n with
  | zero => rfl
  | succ m ih => simp [List.replicate_succ, exMapM, hf, ih]

/-- Folding `max` from `q` over copies of `q` stays at `q`. -/
theorem foldl_max_self (q : Rat) :
    ∀ n, List.foldl max q (List.replicate n q) = q := by
  intro n
  induction n with
  | zero => rfl
  | succ m ih => simpa [List.replicate_succ, max_self] using ih

/-- `_get_max_severity` on a result holding exactly a `'nuclei'` findings
list, expressed through the per-finding mapping. -/
theorem getMaxSeverity_nuclei_list (l : List PyVal) :
    getMaxSeverity (.dict [("nuclei", .list l)]) =
      match exMapM nucFindingSeverity l with
      | Except.error _ => 0
      | Except.ok vals =>
        match pyMaxRat vals with
        | Except.error _ => 0
        | Except.ok q => q := by
  have h0 : tryGetMaxSeverity (.dict [("nuclei", .list l)]) =
      (match exMapM nucFindingSeverity l with
       | Except.error e => Except.error e
       | Except.ok vals => pyMaxRat vals) := rfl
  unfold getMaxSeverity
  rw [h0]
  cases hm : exMapM nucFindingSeverity l with
  | error e => rfl
  | ok vals => cases vals <;> rfl

/-- C6 counterexample: with ZAP alerts `[{'riskcode': 7}, {'riskcode': 'abc'}]`
the malformed second entry makes the whole `max` generator raise, the
handler catches it and returns 0.0 — not the best computable maximum over
the remaining entries, which is 7.0. -/
theorem c6_counterexample :
    getMaxSeverity (.dict [("zap", .dict [("alerts",
      .list [.dict [("riskcode", .num 7)], .dict [("riskcode", .str "abc")]])])]) = 0 ∧
    (0 : Rat) ≠ 7 :=
  ⟨rfl, by norm_num⟩

/-- C6 (amended): `_get_max_severity` never raises; an empty result group
and an empty findings list both yield 0.0; every all-`"info"` group
yields 0.0; a mix including one `"critical"` yields 9.0 via the fixed
label table; but a lookup/computation failure for one entry collapses the
whole group to 0.0 — the values of the remaining entries are discarded,
not re-maximized. -/
theorem c6_severity_edge_cases :
    getMaxSeverity (.dict []) = 0 ∧
    getMaxSeverity (.dict [("nuclei", .list [])]) = 0 ∧
    (∀ n : Nat, getMaxSeverity (.dict [("nuclei",
      .list (List.replicate n (.dict [("severity", .str "info")])))]) = 0) ∧
    getMaxSeverity (.dict [("nuclei",
      .list [.dict [("severity", .str "info")], .dict [("severity", .str "critical")],
        .dict [("severity", .str "low")]])]) = 9 ∧
    getMaxSeverity (.dict [("zap", .dict [("alerts",
      .list [.dict [("riskcode", .num 7)], .dict [("riskcode", .str "abc")]])])]) = 0 := by
  refine ⟨rfl, rfl, ?_, rfl, rfl⟩
  intro n
  rw [getMaxSeverity_nuclei_list,
    exMapM_replicate nucFindingSeverity (PyVal.dict [("severity", PyVal.str "info")]) 0 rfl n]
  cases n with
  | zero => rfl
  | succ m =>
    simpa [pyMaxRat, List.replicate_succ] using foldl_max_self 0 m

/-- The scanner-source categories of the pattern taxonomy. -/
def patternCategories : List String := securityPatterns.map (·.1)

/-- C2: the `zap`/`nuclei`/`dependency` branches of `_get_max_severity`
are a mutually exclusive cascade with `zap` first.  Every web-target
result is a dict with both a `'zap'` and a `'nuclei'` key; on such a
result the returned severity does not depend on the nuclei findings at
all; and on a result whose keys are all pattern categories the cascade
falls through and returns 0.0, so pattern findings never raise the
aggregate maximum. -/
theorem c2_zap_priority :
    (∀ (env : ScanEnv) (url : String), ∃ z n,
      runWebChecks env url = .dict [("zap", z), ("nuclei", n)]) ∧
    (∀ (z : PyVal) (rest₁ rest₂ : List (String × PyVal)),
      getMaxSeverity (.dict (("zap", z) :: rest₁)) =
        getMaxSeverity (.dict (("zap", z) :: rest₂))) ∧
    (∀ (d : List (String × PyVal)), (∀ p ∈ d, p.1 ∈ patternCategories) →
      getMaxSeverity (.dict d) = 0) := by
  refine ⟨fun env url => ⟨_, _, rfl⟩, fun z rest₁ rest₂ => rfl, ?_⟩
  intro d h
  have hkey : ∀ k : String, k ∉ patternCategories →
      d.any (fun p => p.1 == k) = false := by
    intro k hk
    rw [List.any_eq_false]
    intro p hp
    have hpc := h p hp
    intro hbeq
    rw [beq_iff_eq] at hbeq
    exact hk (hbeq ▸ hpc)
  have hz := hkey "zap" (by decide)
  have hn := hkey "nuclei" (by decide)
  have hd := hkey "dependency" (by decide)
  simp only [getMaxSeverity, tryGetMaxSeverity, pyContains, hz, hn, hd]

/-- C2 witness: on a concrete web result the severity ignores the nuclei
findings entirely, and a result keyed only by pattern categories scores
0.0. -/
theorem c2_witness :
    getMaxSeverity (.dict [("zap", .dict [("alerts", .list [.dict [("riskcode", .num 8)]])]),
      ("nuclei", .list [.dict [("severity", .str "critical")]])]) =
      getMaxSeverity (.dict [("zap", .dict [("alerts", .list [.dict [("riskcode", .num 8)]])]),
        ("nuclei", .list [])]) ∧
    getMaxSeverity (.dict [("sql_injection", .list []), ("xss", .list [])]) = 0 :=
  ⟨c2_zap_priority.2.1 (.dict [("alerts", .list [.dict [("riskcode", .num 8)]])])
      [("nuclei", .list [.dict [("severity", .str "critical")]])] [("nuclei", .list [])],
   c2_zap_priority.2.2 _ (by decide)⟩

/-- No codepoint lower-cases to an uppercase ASCII letter. -/
theorem lowerCode_ne_upper {n u : Nat} (h1 : 65 ≤ u) (h2 : u ≤ 90) :
    lowerCode n ≠ u := by
  unfold lowerCode
  split <;> omega

/-- A pattern containing an uppercase ASCII letter is never a substring
of lower-cased content. -/
theorem upper_never_matches {p : List Nat} {u : Nat} (hu : u ∈ p)
    (h1 : 65 ≤ u) (h2 : u ≤ 90) (l : List Nat) :
    strIn p (lowerCodes l) = false := by
  unfold strIn
  refine decide_eq_false ?_
  intro hinf
  have hmem : u ∈ lowerCodes l := hinf.sublist.subset hu
  unfold lowerCodes at hmem
  rw [List.mem_map] at hmem
  obtain ⟨m, _, hm⟩ := hmem
  exact lowerCode_ne_upper h1 h2 hm

/-- C9: the pattern scan lowercases the file content but not the
patterns, so for every file content the seven patterns containing an
uppercase letter (`'SELECT * FROM'`, `'INSERT INTO'`, `'UPDATE'`,
`'DELETE FROM'`, `'DES'`, `'RC4'`, `'xml.etree.ElementTree'`) never
match; the sql_injection string-format heuristic instead checks
`'SELECT'`, the open brace and the close brace against the raw content —
it fires on an uppercase `SELECT` with braces (and on nothing else in
that file), and not on its lower-cased variant. -/
theorem c9_lowercasing (content : String) :
    (strIn (codes "SELECT * FROM") (lowerCodes (codes content)) = false ∧
     strIn (codes "INSERT INTO") (lowerCodes (codes content)) = false ∧
     strIn (codes "UPDATE") (lowerCodes (codes content)) = false ∧
     strIn (codes "DELETE FROM") (lowerCodes (codes content)) = false ∧
     strIn (codes "DES") (lowerCodes (codes content)) = false ∧
     strIn (codes "RC4") (lowerCodes (codes content)) = false ∧
     strIn (codes "xml.etree.ElementTree") (lowerCodes (codes content)) = false) ∧
    checkFile [] "q.py" "SELECT name FROM t WHERE id = \x7bu\x7d" =
      [("sql_injection", [⟨"q.py", "sql_injection", "high"⟩])] ∧
    checkFile [] "q.py" "select name from t where id = \x7bu\x7d" = [] := by
  refine ⟨⟨?_, ?_, ?_, ?_, ?_, ?_, ?_⟩, rfl, rfl⟩
  · exact @upper_never_matches (codes "SELECT * FROM") 83 (by decide) (by decide) (by decide) _
  · exact @upper_never_matches (codes "INSERT INTO") 73 (by decide) (by decide) (by decide) _
  · exact @upper_never_matches (codes "UPDATE") 85 (by decide) (by decide) (by decide) _
  · exact @upper_never_matches (codes "DELETE FROM") 68 (by decide) (by decide) (by decide) _
  · exact @upper_never_matches (codes "DES") 68 (by decide) (by decide) (by decide) _
  · exact @upper_never_matches (codes "RC4") 82 (by decide) (by decide) (by decide) _
  · exact @upper_never_matches (codes "xml.etree.ElementTree") 69 (by decide) (by decide) (by decide) _


